import Mathlib

/-
Verification of the booking-lifecycle / payment-reconciliation core of the
GlobalCribs marketplace backend.

The definitions below are a shallow embedding of the route handlers in
  src/homebridge-backend/src/routes/student.docs.js
  src/homebridge-backend/src/routes/stripe.webhook.js
  src/homebridge-backend/src/routes/admin.agents.js
  src/homebridge-backend/src/routes/agent.payouts.js
and the student-bookings / admin-refunds routers (student.bookings.js,
admin refunds routes).  SQL statements are modelled row-by-row: an UPDATE
with a WHERE clause becomes a map over the table applying a per-row
function; all column references on the right-hand side of a SQL SET list
read the OLD row (simultaneous assignment), which the per-row functions
reproduce.  Timestamps (NOW()) are passed in as an explicit `now : Nat`
parameter; nullable columns are `Option`.
-/

namespace GlobalCribs

/-- Booking.status column: Postgres enum "BookingStatus"
(migration 20250906131019: PENDING_PAYMENT, PAYMENT_COMPLETE,
READY_TO_SUBMIT, UNDER_REVIEW, APPROVED, REJECTED, CANCELLED).
The column is NOT NULL with default PENDING_PAYMENT, so a loaded booking
always carries one of these seven values. -/
inductive BookingStatus where
  | PENDING_PAYMENT
  | PAYMENT_COMPLETE
  | READY_TO_SUBMIT
  | UNDER_REVIEW
  | APPROVED
  | REJECTED
  | CANCELLED
deriving DecidableEq, Repr

/-- The wire string of a booking status, as the JS code sees it when a row
is read from the database. -/
def BookingStatus.str : BookingStatus → String
  | .PENDING_PAYMENT => "PENDING_PAYMENT"
  | .PAYMENT_COMPLETE => "PAYMENT_COMPLETE"
  | .READY_TO_SUBMIT => "READY_TO_SUBMIT"
  | .UNDER_REVIEW => "UNDER_REVIEW"
  | .APPROVED => "APPROVED"
  | .REJECTED => "REJECTED"
  | .CANCELLED => "CANCELLED"

/-- Booking row: the columns this core reads or writes. -/
structure Booking where
  id : String
  studentId : String
  listingId : String
  docIds : List String
  feePaidAt : Option Nat
  paymentMethod : Option String
  submittedAt : Option Nat
  docsUpdatedAt : Option Nat
  status : BookingStatus
  updatedAt : Nat
deriving DecidableEq, Repr

/-- student.docs.js `uniq`: `Array.from(new Set(arr || []))` — deduplicate
keeping the first occurrence of each element, in order. -/
def uniq (arr : List String) : List String :=
  arr.foldl (fun acc x => if acc.contains x then acc else acc ++ [x]) []

/-- student.docs.js lines 72–76, `nextStatusAfterDocsChange(b, hasDocs)`:

  if UNDER_REVIEW/APPROVED/REJECTED → keep b.status;
  if !b.feePaidAt → `b.status || "PENDING_PAYMENT"`;
  else → READY_TO_SUBMIT when hasDocs, else PAYMENT_COMPLETE.

The `|| "PENDING_PAYMENT"` default only fires when `b.status` is falsy
(null/empty); the status column is a NOT NULL enum, so here the branch
returns `b.status` itself. -/
def nextStatusAfterDocsChange (b : Booking) (hasDocs : Bool) : BookingStatus :=
  if ["UNDER_REVIEW", "APPROVED", "REJECTED"].contains b.status.str then b.status
  else if b.feePaidAt.isNone then b.status
  else if hasDocs then .READY_TO_SUBMIT else .PAYMENT_COMPLETE

/-- The UPDATE shared by the three document triggers: sets docIds,
docsUpdatedAt, status = nextStatusAfterDocsChange(b, nextDocIds.length > 0),
updatedAt. -/
def applyDocsChange (nextDocIds : List String) (now : Nat) (b : Booking) : Booking :=
  let hasDocs : Bool := nextDocIds.length > 0
  { b with
    docIds := nextDocIds
    docsUpdatedAt := some now
    status := nextStatusAfterDocsChange b hasDocs
    updatedAt := now }

/-- Row scope of the three document triggers: they load
`WHERE "studentId" = $1 AND status <> 'CANCELLED'` and update exactly
those rows. -/
def docsTriggerScope (userId : String) (b : Booking) : Bool :=
  b.studentId == userId && b.status != BookingStatus.CANCELLED

/-- POST / (upload) per-booking effect, student.docs.js lines 123–137:
nextDocIds = uniq(docIds ++ newIds). -/
def uploadDocsRow (userId : String) (newIds : List String) (now : Nat) (b : Booking) : Booking :=
  if docsTriggerScope userId b then applyDocsChange (uniq (b.docIds ++ newIds)) now b else b

/-- DELETE /:id per-booking effect, student.docs.js lines 180–200:
nextDocIds = docIds.filter(x ≠ docId). -/
def deleteDocRow (userId : String) (docId : String) (now : Nat) (b : Booking) : Booking :=
  if docsTriggerScope userId b then
    applyDocsChange (b.docIds.filter (fun x => x != docId)) now b
  else b

/-- POST /sync per-booking effect, student.docs.js lines 206–247:
nextDocIds = uniq(docIds ++ allDocIds), optionally restricted to one
booking id. -/
def syncDocsRow (userId : String) (bookingId : Option String) (allDocIds : List String)
    (now : Nat) (b : Booking) : Booking :=
  if docsTriggerScope userId b && (match bookingId with
      | some bid => b.id == bid
      | none => true) then
    applyDocsChange (uniq (b.docIds ++ allDocIds)) now b
  else b

/-- Table-level upload handler: updates every booking in scope. -/
def uploadDocsHandler (userId : String) (newIds : List String) (now : Nat)
    (tbl : List Booking) : List Booking :=
  tbl.map (uploadDocsRow userId newIds now)

/-- Table-level delete handler. -/
def deleteDocHandler (userId : String) (docId : String) (now : Nat)
    (tbl : List Booking) : List Booking :=
  tbl.map (deleteDocRow userId docId now)

/-- Table-level sync handler. -/
def syncDocsHandler (userId : String) (bookingId : Option String) (allDocIds : List String)
    (now : Nat) (tbl : List Booking) : List Booking :=
  tbl.map (syncDocsRow userId bookingId allDocIds now)

/-- stripe.webhook.js lines 61–83, `finalizeAppFee` booking effect:
reads docIds and status, computes
  nextStatus = current if current ∈ [UNDER_REVIEW, SUBMITTED,
               SENT_TO_PARTNER, APPROVED, REJECTED]
               else READY_TO_SUBMIT / PAYMENT_COMPLETE by doc count,
then UPDATEs feePaidAt = COALESCE(feePaidAt, NOW()),
paymentMethod = COALESCE(paymentMethod, CARD), status = nextStatus.
SUBMITTED and SENT_TO_PARTNER are named in the JS list but are not values
of the BookingStatus enum, so those two string comparisons can never
match a stored row. -/
def finalizeAppFeeBookingUpdate (now : Nat) (b : Booking) : Booking :=
  let docs := b.docIds.length
  let nextStatus :=
    if ["UNDER_REVIEW", "SUBMITTED", "SENT_TO_PARTNER", "APPROVED", "REJECTED"].contains
        b.status.str then b.status
    else if docs > 0 then BookingStatus.READY_TO_SUBMIT else BookingStatus.PAYMENT_COMPLETE
  { b with
    feePaidAt := some (b.feePaidAt.getD now)
    paymentMethod := some (b.paymentMethod.getD "CARD")
    status := nextStatus
    updatedAt := now }

/-- Sticky statuses named by `nextStatusAfterDocsChange`. -/
def stickyDocs (s : BookingStatus) : Prop :=
  s = .UNDER_REVIEW ∨ s = .APPROVED ∨ s = .REJECTED

instance (s : BookingStatus) : Decidable (stickyDocs s) := by
  unfold stickyDocs; infer_instance

/-- For a sticky status, `nextStatusAfterDocsChange` returns the current
status whatever the fee/doc flags are. -/
theorem nextStatusAfterDocsChange_sticky (b : Booking) (hs : stickyDocs b.status)
    (hd : Bool) : nextStatusAfterDocsChange b hd = b.status := by
  rcases hs with h | h | h <;>
    simp [nextStatusAfterDocsChange, h, BookingStatus.str]

/-- For a non-sticky status, `nextStatusAfterDocsChange` keeps the status
when the fee is unpaid and otherwise derives it from the doc flag. -/
theorem nextStatusAfterDocsChange_nonsticky (b : Booking) (hs : ¬ stickyDocs b.status)
    (hd : Bool) :
    nextStatusAfterDocsChange b hd =
      if b.feePaidAt.isNone then b.status
      else if hd then .READY_TO_SUBMIT else .PAYMENT_COMPLETE := by
  have h1 : b.status ≠ .UNDER_REVIEW := fun h => hs (Or.inl h)
  have h2 : b.status ≠ .APPROVED := fun h => hs (Or.inr (Or.inl h))
  have h3 : b.status ≠ .REJECTED := fun h => hs (Or.inr (Or.inr h))
  cases hb : b.status <;> simp_all [nextStatusAfterDocsChange, BookingStatus.str]

/-- For a non-sticky status, the status written by the shared docs UPDATE is
the current status when the fee is unpaid, else derived from emptiness of the
new doc list. -/
theorem applyDocsChange_status_nonsticky (b : Booking) (hs : ¬ stickyDocs b.status)
    (l : List String) (now : Nat) :
    (applyDocsChange l now b).status =
      if b.feePaidAt.isNone then b.status
      else if l = [] then .PAYMENT_COMPLETE else .READY_TO_SUBMIT := by
  show nextStatusAfterDocsChange b _ = _
  rw [nextStatusAfterDocsChange_nonsticky b hs]
  rcases l with _ | ⟨x, xs⟩ <;> simp

/-- C2: for every booking whose status is UNDER_REVIEW, APPROVED or
REJECTED, the document attach, delete and bulk-sync operations leave the
booking's status unchanged, for every fee state and every resulting doc
list. -/
theorem claim_C2_sticky_status_under_doc_triggers
    (b : Booking) (userId docId : String) (newIds allDocIds : List String)
    (bookingId : Option String) (now : Nat)
    (hs : stickyDocs b.status) :
    (uploadDocsRow userId newIds now b).status = b.status
    ∧ (deleteDocRow userId docId now b).status = b.status
    ∧ (syncDocsRow userId bookingId allDocIds now b).status = b.status := by
  have key : ∀ l : List String, (applyDocsChange l now b).status = b.status := by
    intro l
    show nextStatusAfterDocsChange b _ = _
    exact nextStatusAfterDocsChange_sticky b hs _
  refine ⟨?_, ?_, ?_⟩ <;>
    simp only [uploadDocsRow, deleteDocRow, syncDocsRow] <;>
    split <;> simp [key]

/-- Concrete sticky booking used by the C2 witness. -/
def bookingC2w : Booking :=
  { id := "b1", studentId := "u1", listingId := "l1", docIds := [], feePaidAt := none,
    paymentMethod := none, submittedAt := none, docsUpdatedAt := none,
    status := .UNDER_REVIEW, updatedAt := 0 }

/-- C2 witness: the three doc triggers leave a concrete UNDER_REVIEW booking's
status unchanged. -/
theorem claim_C2_witness :
    (uploadDocsRow "u1" ["d1"] 7 bookingC2w).status = bookingC2w.status
    ∧ (deleteDocRow "u1" "d1" 7 bookingC2w).status = bookingC2w.status
    ∧ (syncDocsRow "u1" none ["d1"] 7 bookingC2w).status = bookingC2w.status :=
  claim_C2_sticky_status_under_doc_triggers bookingC2w "u1" "d1" ["d1"] ["d1"] none 7
    (by decide)

/-- Concrete booking refuting C1 as stated: non-sticky status
PAYMENT_COMPLETE with the fee unpaid. -/
def bookingC1cex : Booking :=
  { id := "b1", studentId := "u1", listingId := "l1", docIds := ["d1"], feePaidAt := none,
    paymentMethod := none, submittedAt := none, docsUpdatedAt := none,
    status := .PAYMENT_COMPLETE, updatedAt := 0 }

/-- C1 counterexample: this booking has a non-sticky status and feePaidAt
unset, and the bulk-sync trigger does touch it, yet the trigger leaves the
status PAYMENT_COMPLETE rather than the PENDING_PAYMENT the claim requires:
`nextStatusAfterDocsChange` keeps the current status when the fee is
unpaid instead of resetting it. -/
theorem claim_C1_counterexample :
    ¬ stickyDocs bookingC1cex.status
    ∧ bookingC1cex.feePaidAt = none
    ∧ docsTriggerScope "u1" bookingC1cex = true
    ∧ (syncDocsRow "u1" none ["d1"] 5 bookingC1cex).status ≠ BookingStatus.PENDING_PAYMENT := by
  decide

/-- C1 (amended): for a booking whose status is not UNDER_REVIEW, APPROVED
or REJECTED: the three document triggers skip CANCELLED bookings entirely;
on a booking they do touch they leave the status unchanged when feePaidAt is
unset, and set PAYMENT_COMPLETE or READY_TO_SUBMIT according to emptiness of
the resulting doc list when feePaidAt is set; the application-fee payment
trigger leaves feePaidAt set and sets PAYMENT_COMPLETE or READY_TO_SUBMIT
according to the attached-document count. -/
theorem claim_C1_amended_status_derivation
    (b : Booking) (userId docId : String) (newIds allDocIds : List String)
    (bookingId : Option String) (now : Nat)
    (hs : ¬ stickyDocs b.status) (hu : b.studentId = userId) :
    (b.status = .CANCELLED →
      uploadDocsRow userId newIds now b = b
      ∧ deleteDocRow userId docId now b = b
      ∧ syncDocsRow userId bookingId allDocIds now b = b)
    ∧ (b.status ≠ .CANCELLED →
        (uploadDocsRow userId newIds now b).status =
          (if b.feePaidAt.isNone then b.status
           else if uniq (b.docIds ++ newIds) = [] then .PAYMENT_COMPLETE
           else .READY_TO_SUBMIT)
        ∧ (deleteDocRow userId docId now b).status =
          (if b.feePaidAt.isNone then b.status
           else if b.docIds.filter (fun x => x != docId) = [] then .PAYMENT_COMPLETE
           else .READY_TO_SUBMIT))
    ∧ (b.status ≠ .CANCELLED → (bookingId = none ∨ bookingId = some b.id) →
        (syncDocsRow userId bookingId allDocIds now b).status =
          (if b.feePaidAt.isNone then b.status
           else if uniq (b.docIds ++ allDocIds) = [] then .PAYMENT_COMPLETE
           else .READY_TO_SUBMIT))
    ∧ ((finalizeAppFeeBookingUpdate now b).feePaidAt ≠ none
       ∧ (finalizeAppFeeBookingUpdate now b).status =
          (if b.docIds = [] then .PAYMENT_COMPLETE else .READY_TO_SUBMIT)) := by
  subst hu
  refine ⟨?_, ?_, ?_, ?_, ?_⟩
  · intro hc
    have hscope : docsTriggerScope b.studentId b = false := by
      simp [docsTriggerScope, hc]
    refine ⟨?_, ?_, ?_⟩ <;>
      simp [uploadDocsRow, deleteDocRow, syncDocsRow, hscope]
  · intro hc
    have hscope : docsTriggerScope b.studentId b = true := by
      simp [docsTriggerScope, hc]
    constructor <;>
      simp [uploadDocsRow, deleteDocRow, hscope, applyDocsChange_status_nonsticky b hs]
  · intro hc hbid
    have hscope : docsTriggerScope b.studentId b = true := by
      simp [docsTriggerScope, hc]
    rcases hbid with h | h <;>
      simp [syncDocsRow, hscope, h, applyDocsChange_status_nonsticky b hs]
  · simp [finalizeAppFeeBookingUpdate]
  · have h1 : b.status ≠ .UNDER_REVIEW := fun h => hs (Or.inl h)
    have h2 : b.status ≠ .APPROVED := fun h => hs (Or.inr (Or.inl h))
    have h3 : b.status ≠ .REJECTED := fun h => hs (Or.inr (Or.inr h))
    cases hb : b.status <;>
      rcases hd : b.docIds with _ | ⟨x, xs⟩ <;>
      simp_all [finalizeAppFeeBookingUpdate, BookingStatus.str]

/-- Concrete non-sticky booking used by the C1 witness: fee paid, one doc. -/
def bookingC1w : Booking :=
  { id := "b9", studentId := "u1", listingId := "l1", docIds := ["d1"], feePaidAt := some 1,
    paymentMethod := none, submittedAt := none, docsUpdatedAt := none,
    status := .PENDING_PAYMENT, updatedAt := 0 }

/-- C1 witness: on a concrete fee-paid booking with one doc, the upload
trigger derives READY_TO_SUBMIT. -/
theorem claim_C1_witness :
    (uploadDocsRow "u1" ["d2"] 9 bookingC1w).status = BookingStatus.READY_TO_SUBMIT :=
  ((claim_C1_amended_status_derivation bookingC1w "u1" "dX" ["d2"] ["d3"] none 9
      (by decide) rfl).2.1 (by decide)).1.trans (by decide)

/-- StudentPayment ledger row: the columns written by
stripe.webhook.js `recordStudentPayment` plus id and createdAt (the
DB generates both; later queries order by createdAt). -/
structure PaymentRow where
  id : String
  userId : String
  bookingId : Option String
  offerId : Option String
  type : String
  amountCents : Int
  currency : String
  status : String
  stripePaymentIntentId : Option String
  stripeChargeId : Option String
  stripeCheckoutSessionId : Option String
  cardBrand : Option String
  cardLast4 : Option String
  receiptUrl : Option String
  createdAt : Nat
deriving DecidableEq, Repr

/-- stripe.webhook.js lines 30–59, `recordStudentPayment`:
`INSERT INTO "StudentPayment" (...) VALUES (...)
 ON CONFLICT ("stripePaymentIntentId") DO NOTHING`.
The ON CONFLICT target requires a unique index on stripePaymentIntentId;
under it the insert is skipped exactly when some existing row carries the
same non-null payment-intent id (SQL NULLs never conflict). -/
def recordStudentPayment (ledger : List PaymentRow) (r : PaymentRow) : List PaymentRow :=
  match r.stripePaymentIntentId with
  | some p =>
      if ledger.any (fun x => x.stripePaymentIntentId == some p) then ledger
      else ledger ++ [r]
  | none => ledger ++ [r]

/-- C3: delivering two payment-succeeded events that carry the same upstream
payment-intent id yields exactly one ledger row for that id; the second
insert returns the ledger unchanged (a no-op, not an error). -/
theorem claim_C3_idempotent_ledger_insert
    (L : List PaymentRow) (r r2 : PaymentRow) (p : String)
    (hp : r.stripePaymentIntentId = some p)
    (hp2 : r2.stripePaymentIntentId = some p)
    (h0 : L.countP (fun x => x.stripePaymentIntentId == some p) = 0) :
    (recordStudentPayment (recordStudentPayment L r) r2).countP
        (fun x => x.stripePaymentIntentId == some p) = 1
    ∧ recordStudentPayment (recordStudentPayment L r) r2 = recordStudentPayment L r := by
  have hnone : ∀ x ∈ L, ¬ (x.stripePaymentIntentId == some p) = true := by
    intro x hx
    exact List.countP_eq_zero.mp h0 x hx
  have hany : L.any (fun x => x.stripePaymentIntentId == some p) = false := by
    rw [List.any_eq_false]
    exact hnone
  have h1 : recordStudentPayment L r = L ++ [r] := by
    simp [recordStudentPayment, hp, hany]
  have hany2 : (L ++ [r]).any (fun x => x.stripePaymentIntentId == some p) = true := by
    rw [List.any_eq_true]
    exact ⟨r, by simp, by simp [hp]⟩
  have h2 : recordStudentPayment (L ++ [r]) r2 = L ++ [r] := by
    simp [recordStudentPayment, hp2, hany2]
  rw [h1, h2]
  constructor
  · rw [List.countP_append, h0]
    simp [List.countP, List.countP.go, hp]
  · rfl

/-- Concrete ledger row used by the C3 witness. -/
def paymentC3w : PaymentRow :=
  { id := "sp1", userId := "u1", bookingId := some "b1", offerId := none,
    type := "APP_FEE", amountCents := 2500, currency := "USD", status := "succeeded",
    stripePaymentIntentId := some "pi_1", stripeChargeId := some "ch_1",
    stripeCheckoutSessionId := none, cardBrand := some "visa", cardLast4 := some "4242",
    receiptUrl := none, createdAt := 3 }

/-- C3 witness: inserting the same payment-intent id twice into the empty
ledger leaves exactly one row and the second insert is a no-op. -/
theorem claim_C3_witness :
    (recordStudentPayment (recordStudentPayment [] paymentC3w) paymentC3w).countP
        (fun x => x.stripePaymentIntentId == some "pi_1") = 1
    ∧ recordStudentPayment (recordStudentPayment [] paymentC3w) paymentC3w
        = recordStudentPayment [] paymentC3w :=
  claim_C3_idempotent_ledger_insert [] paymentC3w paymentC3w "pi_1" rfl rfl (by decide)

/-- Offer.status column: Postgres enum "OfferStatus". -/
inductive OfferStatus where
  | SENT
  | ACCEPTED
  | DECLINED
  | EXPIRED
  | CANCELLED
deriving DecidableEq, Repr

/-- Offer row: the columns this core reads or writes (paidNowAt and
payMethod are used by the webhook reconciler). -/
structure Offer where
  id : String
  bookingId : String
  agentId : Option String
  status : OfferStatus
  currency : String
  acceptedAt : Option Nat
  declinedAt : Option Nat
  paidNowAt : Option Nat
  payMethod : Option String
  createdAt : Nat
  updatedAt : Nat
deriving DecidableEq, Repr

/-- Charge attached to a PaymentIntent (pi.charges.data[0]). -/
structure StripeCharge where
  id : String
  cardBrand : Option String
  cardLast4 : Option String
  receiptUrl : Option String
deriving DecidableEq, Repr

/-- The PaymentIntent fields the webhook reads. -/
structure StripePI where
  id : String
  amountReceived : Option Int
  amount : Option Int
  currency : Option String
  charge : Option StripeCharge
deriving DecidableEq, Repr

/-- stripe.webhook.js lines 16–28, `extractCardFromPI`. -/
structure CardMeta where
  chargeId : Option String
  cardBrand : Option String
  cardLast4 : Option String
  receiptUrl : Option String
  amountCents : Int
  currency : String
deriving DecidableEq, Repr

/-- `extractCardFromPI(pi)`: chargeId and card data from the first charge,
amount = amount_received ?? amount ?? 0, currency upper-cased with "usd"
default. -/
def extractCardFromPI (pi : StripePI) : CardMeta :=
  { chargeId := pi.charge.map (·.id)
    cardBrand := pi.charge.bind (·.cardBrand)
    cardLast4 := pi.charge.bind (·.cardLast4)
    receiptUrl := pi.charge.bind (·.receiptUrl)
    amountCents := pi.amountReceived.getD (pi.amount.getD 0)
    currency := (pi.currency.getD "usd").toUpper }

/-- stripe.webhook.js lines 101–113, the Offer UPDATE in `finalizeOfferNow`.
All column references in the SET list read the old row (SQL simultaneous
assignment), so `acceptedAt` is overwritten exactly when the OLD status is
not ACCEPTED:
  paidNowAt = COALESCE(paidNowAt, NOW()),
  payMethod = COALESCE(payMethod, CARD),
  status = CASE WHEN status <> ACCEPTED THEN ACCEPTED ELSE status END,
  acceptedAt = CASE WHEN status <> ACCEPTED THEN NOW() ELSE acceptedAt END. -/
def finalizeOfferNowUpdate (now : Nat) (o : Offer) : Offer :=
  { o with
    paidNowAt := some (o.paidNowAt.getD now)
    payMethod := some (o.payMethod.getD "CARD")
    status := if o.status ≠ .ACCEPTED then .ACCEPTED else o.status
    acceptedAt := if o.status ≠ .ACCEPTED then some now else o.acceptedAt
    updatedAt := now }

/-- Webhook-side state touched by `finalizeOfferNow`: the Offer table and
the StudentPayment ledger. -/
structure WebhookState where
  offers : List Offer
  ledger : List PaymentRow
deriving Repr

/-- stripe.webhook.js lines 101–130, `finalizeOfferNow`: update the Offer
row by id, then record an OFFER_NOW ledger entry (idempotent insert).
`freshId`/`now` stand for the id and NOW() the DB generates. -/
def finalizeOfferNow (userId bookingId offerId : String) (pi : StripePI)
    (checkoutSessionId : Option String) (freshId : String) (now : Nat)
    (st : WebhookState) : WebhookState :=
  let meta := extractCardFromPI pi
  { offers := st.offers.map fun o =>
      if o.id == offerId then finalizeOfferNowUpdate now o else o
    ledger := recordStudentPayment st.ledger
      { id := freshId, userId := userId, bookingId := some bookingId,
        offerId := some offerId, type := "OFFER_NOW", amountCents := meta.amountCents,
        currency := meta.currency, status := "succeeded",
        stripePaymentIntentId := some pi.id, stripeChargeId := meta.chargeId,
        stripeCheckoutSessionId := checkoutSessionId, cardBrand := meta.cardBrand,
        cardLast4 := meta.cardLast4, receiptUrl := meta.receiptUrl, createdAt := now } }

/-- C5: a successful offer-due-now webhook event on an Offer in status SENT
sets that Offer's row to status ACCEPTED with acceptedAt and a non-null
paidNowAt, although accept was never called. -/
theorem claim_C5_offer_payment_implies_acceptance
    (st : WebhookState) (userId bookingId offerId freshId : String) (pi : StripePI)
    (cs : Option String) (now : Nat) (i : Nat) (hi : i < st.offers.length)
    (hid : (st.offers.get ⟨i, hi⟩).id = offerId)
    (hsent : (st.offers.get ⟨i, hi⟩).status = .SENT)
    (hj : i < (finalizeOfferNow userId bookingId offerId pi cs freshId now st).offers.length) :
    ((finalizeOfferNow userId bookingId offerId pi cs freshId now st).offers.get ⟨i, hj⟩).status
        = .ACCEPTED
    ∧ ((finalizeOfferNow userId bookingId offerId pi cs freshId now st).offers.get
        ⟨i, hj⟩).acceptedAt = some now
    ∧ ((finalizeOfferNow userId bookingId offerId pi cs freshId now st).offers.get
        ⟨i, hj⟩).paidNowAt.isSome = true := by
  have hmap : (finalizeOfferNow userId bookingId offerId pi cs freshId now st).offers.get ⟨i, hj⟩
      = (fun o => if o.id == offerId then finalizeOfferNowUpdate now o else o)
          (st.offers.get ⟨i, hi⟩) := by
    simp [finalizeOfferNow, List.get_eq_getElem, List.getElem_map]
  rw [hmap]
  simp only [hid, beq_self_eq_true, if_true]
  simp only [List.get_eq_getElem] at hsent
  refine ⟨?_, ?_, ?_⟩ <;> simp [finalizeOfferNowUpdate, hsent]

/-- Concrete SENT offer used by the C5 witness. -/
def offerC5w : Offer :=
  { id := "o1", bookingId := "b1", agentId := some "a1", status := .SENT,
    currency := "USD", acceptedAt := none, declinedAt := none, paidNowAt := none,
    payMethod := none, createdAt := 1, updatedAt := 1 }

/-- Concrete PaymentIntent used by the C5 witness. -/
def piC5w : StripePI :=
  { id := "pi_9", amountReceived := some 50000, amount := none,
    currency := some "usd", charge := none }

/-- C5 witness: the offer-due-now webhook on a concrete SENT offer marks it
ACCEPTED with acceptedAt and paidNowAt set. -/
theorem claim_C5_witness :
    ((finalizeOfferNow "u1" "b1" "o1" piC5w none "sp9" 4
        ⟨[offerC5w], []⟩).offers.get ⟨0, by decide⟩).status = .ACCEPTED
    ∧ ((finalizeOfferNow "u1" "b1" "o1" piC5w none "sp9" 4
        ⟨[offerC5w], []⟩).offers.get ⟨0, by decide⟩).acceptedAt = some 4
    ∧ ((finalizeOfferNow "u1" "b1" "o1" piC5w none "sp9" 4
        ⟨[offerC5w], []⟩).offers.get ⟨0, by decide⟩).paidNowAt.isSome = true :=
  claim_C5_offer_payment_implies_acceptance ⟨[offerC5w], []⟩ "u1" "b1" "o1" "sp9" piC5w
    none 4 0 (by decide) rfl rfl (by decide)

/-- Accumulator pass behind `latestOffer`: keeps the offer with the
greatest createdAt, the earliest such row on ties (a deterministic model of
`ORDER BY "createdAt" DESC LIMIT 1`). -/
def latestAux : Option Offer → List Offer → Option Offer
  | acc, [] => acc
  | none, o :: rest => latestAux (some o) rest
  | some a, o :: rest => latestAux (some (if o.createdAt > a.createdAt then o else a)) rest

/-- `SELECT ... FROM "Offer" ... ORDER BY "createdAt" DESC LIMIT 1` over a
list of offers. -/
def latestOffer (offers : List Offer) : Option Offer :=
  latestAux none offers

/-- `latestAux` commutes with mapping a createdAt-preserving function over
the table. -/
theorem latestAux_map (g : Offer → Offer) (hg : ∀ x, (g x).createdAt = x.createdAt)
    (acc : Option Offer) (os : List Offer) :
    latestAux (acc.map g) (os.map g) = (latestAux acc os).map g := by
  induction os generalizing acc with
  | nil => simp [latestAux]
  | cons o rest ih =>
    cases acc with
    | none =>
      have := ih (some o)
      simpa [latestAux] using this
    | some a =>
      have hsel : (if (g o).createdAt > (g a).createdAt then g o else g a)
          = g (if o.createdAt > a.createdAt then o else a) := by
        rw [hg, hg]
        by_cases hc : o.createdAt > a.createdAt <;> simp [hc]
      have step : latestAux ((some a).map g) ((o :: rest).map g)
          = latestAux (some (if (g o).createdAt > (g a).createdAt then g o else g a))
              (rest.map g) := by
        simp [latestAux]
      rw [step, hsel]
      have := ih (some (if o.createdAt > a.createdAt then o else a))
      simpa [latestAux] using this

/-- Result of the student offer-accept handler (after ownership checks):
`noOffer` is the 400 "No offer to accept." response. -/
inductive AcceptResult where
  | noOffer
  | ok
deriving DecidableEq, Repr

/-- student.bookings.js lines 802–833, POST /:id/offer/accept: load the
latest offer of the booking; 400 when none; if its status is not ACCEPTED,
UPDATE it to ACCEPTED with acceptedAt = NOW(); otherwise mutate nothing;
either way respond 200. -/
def acceptLatestOffer (bookingId : String) (now : Nat) (offers : List Offer) :
    AcceptResult × List Offer :=
  match latestOffer (offers.filter (fun o => o.bookingId == bookingId)) with
  | none => (.noOffer, offers)
  | some latest =>
    if latest.status != .ACCEPTED then
      (.ok, offers.map fun o =>
        if o.id == latest.id then
          { o with status := .ACCEPTED, acceptedAt := some now, updatedAt := now }
        else o)
    else (.ok, offers)

/-- C7: accepting the latest offer twice succeeds both times; the first call
sets acceptedAt, the second call mutates nothing and keeps the first
acceptedAt value. -/
theorem claim_C7_offer_accept_idempotent
    (offers : List Offer) (bookingId : String) (t1 t2 : Nat) (latest : Offer)
    (hl : latestOffer (offers.filter (fun o => o.bookingId == bookingId)) = some latest)
    (hna : latest.status ≠ .ACCEPTED) :
    ∃ offers1, acceptLatestOffer bookingId t1 offers = (.ok, offers1)
    ∧ acceptLatestOffer bookingId t2 offers1 = (.ok, offers1)
    ∧ latestOffer (offers1.filter (fun o => o.bookingId == bookingId))
        = some { latest with status := .ACCEPTED, acceptedAt := some t1, updatedAt := t1 } := by
  set g : Offer → Offer := fun o =>
    if o.id == latest.id then
      { o with status := .ACCEPTED, acceptedAt := some t1, updatedAt := t1 }
    else o with hgdef
  have hg : ∀ x, (g x).createdAt = x.createdAt := by
    intro x
    by_cases hx : x.id = latest.id <;> simp [hgdef, hx]
  have hgbk : ∀ x, (g x).bookingId = x.bookingId := by
    intro x
    by_cases hx : x.id = latest.id <;> simp [hgdef, hx]
  have hl2 : latestAux none (offers.filter (fun o => o.bookingId == bookingId))
      = some latest := hl
  have hfilter : (offers.map g).filter (fun o => o.bookingId == bookingId)
      = (offers.filter (fun o => o.bookingId == bookingId)).map g := by
    rw [List.filter_map]
    congr 1
    apply List.filter_congr
    intro x _
    simp [Function.comp, hgbk]
  have hlat : latestOffer ((offers.map g).filter (fun o => o.bookingId == bookingId))
      = some (g latest) := by
    show latestAux none _ = _
    rw [hfilter]
    have h3 := latestAux_map g hg none (offers.filter (fun o => o.bookingId == bookingId))
    simpa [hl2] using h3
  have hglatest : g latest
      = { latest with status := .ACCEPTED, acceptedAt := some t1, updatedAt := t1 } := by
    simp [hgdef]
  refine ⟨offers.map g, ?_, ?_, ?_⟩
  · simp [acceptLatestOffer, hl, hna]
    intro a _
    by_cases hx : a.id = latest.id <;> simp [hgdef, hx]
  · rw [hglatest] at hlat
    simp [acceptLatestOffer, hlat]
  · rw [hglatest] at hlat
    exact hlat

/-- Concrete SENT offer used by the C7 witness. -/
def offerC7w : Offer :=
  { id := "o2", bookingId := "b2", agentId := some "a1", status := .SENT,
    currency := "USD", acceptedAt := none, declinedAt := none, paidNowAt := none,
    payMethod := none, createdAt := 5, updatedAt := 5 }

/-- C7 witness: accepting a concrete one-offer booking twice succeeds twice,
the second call mutating nothing, with acceptedAt fixed by the first call. -/
theorem claim_C7_witness :
    ∃ offers1, acceptLatestOffer "b2" 10 [offerC7w] = (.ok, offers1)
    ∧ acceptLatestOffer "b2" 11 offers1 = (.ok, offers1)
    ∧ latestOffer (offers1.filter (fun o => o.bookingId == "b2"))
        = some { offerC7w with status := .ACCEPTED, acceptedAt := some 10, updatedAt := 10 } :=
  claim_C7_offer_accept_idempotent [offerC7w] "b2" 10 11 offerC7w (by decide) (by decide)

/-- Finding a row by id commutes with an id-preserving conditional update of
that id's rows. -/
theorem find?_map_by_id {α : Type} (idOf : α → String) (tbl : List α) (key : String)
    (g : α → α) (hg : ∀ x, idOf (g x) = idOf x) (b : α)
    (h : tbl.find? (fun x => idOf x == key) = some b) :
    (tbl.map fun x => if idOf x == key then g x else x).find? (fun x => idOf x == key)
      = some (g b) := by
  induction tbl with
  | nil => simp at h
  | cons y ys ih =>
    cases hy : (idOf y == key) with
    | true =>
      have hgy : (idOf (g y) == key) = true := by rw [hg]; exact hy
      simp only [List.find?, hy] at h
      injection h with h
      subst h
      simp [List.find?, hy, hgy]
    | false =>
      have hgy : (idOf (g y) == key) = false := by rw [hg]; exact hy
      simp only [List.find?, hy] at h
      simp only [List.map_cons, List.find?, hy, hgy, Bool.false_eq_true, if_false]
      exact ih h

/-- Response of the submit handler: `feeNotPaid` is the 400
"Application fee not paid", `noDocs` the 400 "Attach at least one
document"; on `ok` the row was updated. -/
inductive SubmitResult where
  | notFound
  | forbidden
  | feeNotPaid
  | noDocs
  | ok
deriving DecidableEq, Repr

/-- The UPDATE run by a successful submit:
`SET "submittedAt" = NOW(), status = 'UNDER_REVIEW', "updatedAt" = NOW()`. -/
def submitUpdate (now : Nat) (b : Booking) : Booking :=
  { b with submittedAt := some now, status := .UNDER_REVIEW, updatedAt := now }

/-- student.bookings.js lines 714–799, POST /:id/submit: `mustOwnBooking`
(404 when absent, 403 when not the caller's), then 400 when feePaidAt is
null, 400 when docIds is empty, else UPDATE the row by id. -/
def submitHandler (bookingId userId : String) (now : Nat) (tbl : List Booking) :
    SubmitResult × List Booking :=
  match tbl.find? (fun b => b.id == bookingId) with
  | none => (.notFound, tbl)
  | some b =>
    if b.studentId != userId then (.forbidden, tbl)
    else if b.feePaidAt.isNone then (.feeNotPaid, tbl)
    else if b.docIds.length = 0 then (.noDocs, tbl)
    else (.ok, tbl.map fun x => if x.id == bookingId then submitUpdate now x else x)

/-- C4: submit on an owned booking fails with a validation error and leaves
the table unchanged when the fee is unpaid, and when the fee is paid but no
document is attached; with fee paid and at least one document it succeeds,
and the row ends with status UNDER_REVIEW and a non-null submittedAt. -/
theorem claim_C4_submit_guard
    (tbl : List Booking) (bookingId userId : String) (now : Nat) (b : Booking)
    (hfind : tbl.find? (fun x => x.id == bookingId) = some b)
    (hown : b.studentId = userId) :
    (b.feePaidAt = none → submitHandler bookingId userId now tbl = (.feeNotPaid, tbl))
    ∧ (b.feePaidAt ≠ none → b.docIds = [] →
        submitHandler bookingId userId now tbl = (.noDocs, tbl))
    ∧ (b.feePaidAt ≠ none → b.docIds ≠ [] →
        (submitHandler bookingId userId now tbl).1 = .ok
        ∧ (submitHandler bookingId userId now tbl).2.find? (fun x => x.id == bookingId)
            = some (submitUpdate now b)
        ∧ (submitUpdate now b).status = .UNDER_REVIEW
        ∧ (submitUpdate now b).submittedAt = some now) := by
  have hueq : (b.studentId != userId) = false := by simp [hown]
  refine ⟨?_, ?_, ?_⟩
  · intro hfee
    simp [submitHandler, hfind, hueq, hfee]
  · intro hfee hdocs
    simp [submitHandler, hfind, hueq, Option.isNone_iff_eq_none, hfee, hdocs]
  · intro hfee hdocs
    have hlen : (b.docIds.length = 0) = False := by
      simp [List.length_eq_zero, hdocs]
    refine ⟨?_, ?_, rfl, rfl⟩
    · simp [submitHandler, hfind, hueq, Option.isNone_iff_eq_none, hfee, hlen]
    · have hrun : (submitHandler bookingId userId now tbl).2
          = tbl.map fun x => if x.id == bookingId then submitUpdate now x else x := by
        simp [submitHandler, hfind, hueq, Option.isNone_iff_eq_none, hfee, hlen]
      rw [hrun]
      exact find?_map_by_id Booking.id tbl bookingId (submitUpdate now) (fun x => rfl) b hfind

/-- Concrete booking for the C4 witness: owned, fee unpaid. -/
def bookingC4w : Booking :=
  { id := "b4", studentId := "u4", listingId := "l1", docIds := [], feePaidAt := none,
    paymentMethod := none, submittedAt := none, docsUpdatedAt := none,
    status := .PENDING_PAYMENT, updatedAt := 0 }

/-- C4 witness: submit on a concrete owned,-unpaid booking is rejected with
the fee validation error and leaves the table unchanged. -/
theorem claim_C4_witness :
    submitHandler "b4" "u4" 3 [bookingC4w] = (.feeNotPaid, [bookingC4w]) :=
  (claim_C4_submit_guard [bookingC4w] "b4" "u4" 3 bookingC4w (by decide) rfl).1 rfl

/-- C10: submit is not guarded by the sticky-state rule: whatever the
booking's current status — APPROVED and REJECTED included — once the fee is
paid and a document is attached, submit succeeds, forces status back to
UNDER_REVIEW and overwrites submittedAt with the current time. -/
theorem claim_C10_submit_overrides_decisions
    (tbl : List Booking) (bookingId userId : String) (now : Nat) (b : Booking)
    (hfind : tbl.find? (fun x => x.id == bookingId) = some b)
    (hown : b.studentId = userId)
    (hfee : b.feePaidAt ≠ none) (hdocs : b.docIds ≠ []) :
    (submitHandler bookingId userId now tbl).1 = .ok
    ∧ (submitHandler bookingId userId now tbl).2.find? (fun x => x.id == bookingId)
        = some { b with submittedAt := some now, status := .UNDER_REVIEW, updatedAt := now } := by
  have hueq : (b.studentId != userId) = false := by simp [hown]
  have hlen : (b.docIds.length = 0) = False := by
    simp [List.length_eq_zero, hdocs]
  constructor
  · simp [submitHandler, hfind, hueq, Option.isNone_iff_eq_none, hfee, hlen]
  · have hrun : (submitHandler bookingId userId now tbl).2
        = tbl.map fun x => if x.id == bookingId then submitUpdate now x else x := by
      simp [submitHandler, hfind, hueq, Option.isNone_iff_eq_none, hfee, hlen]
    rw [hrun]
    exact find?_map_by_id Booking.id tbl bookingId (submitUpdate now) (fun x => rfl) b hfind

/-- Concrete APPROVED booking for the C10 witness: admin already decided,
fee paid, one doc, an old submittedAt on record. -/
def bookingC10w : Booking :=
  { id := "b10", studentId := "u4", listingId := "l1", docIds := ["d1"],
    feePaidAt := some 1, paymentMethod := none, submittedAt := some 2,
    docsUpdatedAt := none, status := .APPROVED, updatedAt := 2 }

/-- C10 witness: submit on a concrete APPROVED booking succeeds and moves it
back to UNDER_REVIEW with submittedAt overwritten. -/
theorem claim_C10_witness :
    (submitHandler "b10" "u4" 9 [bookingC10w]).1 = .ok
    ∧ (submitHandler "b10" "u4" 9 [bookingC10w]).2.find? (fun x => x.id == "b10")
        = some { bookingC10w with
                  submittedAt := some 9, status := .UNDER_REVIEW, updatedAt := 9 } :=
  claim_C10_submit_overrides_decisions [bookingC10w] "b10" "u4" 9 bookingC10w
    (by decide) rfl (by decide) (by decide)

/-- RefundRequest.status values: PENDING, REFUNDED, DECLINED. -/
inductive RefundStatus where
  | PENDING
  | REFUNDED
  | DECLINED
deriving DecidableEq, Repr

/-- RefundRequest row. -/
structure RefundRow where
  id : String
  userId : String
  bookingId : Option String
  paymentId : String
  amountCents : Int
  currency : String
  reason : Option String
  status : RefundStatus
  stripeRefundId : Option String
  processedAt : Option Nat
  createdAt : Nat
  updatedAt : Nat
deriving DecidableEq, Repr

/-- Accumulator pass behind `latestSucceededPayment` (greatest createdAt,
earliest row on ties). -/
def latestPaymentAux : Option PaymentRow → List PaymentRow → Option PaymentRow
  | acc, [] => acc
  | none, x :: rest => latestPaymentAux (some x) rest
  | some a, x :: rest =>
      latestPaymentAux (some (if x.createdAt > a.createdAt then x else a)) rest

/-- student.bookings.js lines 1049–1056: the most recent succeeded payment
on the booking for this student
(`WHERE "bookingId"=$1 AND "userId"=$2 AND status='succeeded'
  ORDER BY "createdAt" DESC LIMIT 1`). -/
def latestSucceededPayment (bookingId userId : String) (ledger : List PaymentRow) :
    Option PaymentRow :=
  latestPaymentAux none (ledger.filter fun p =>
    p.bookingId == some bookingId && p.userId == userId && p.status == "succeeded")

/-- Response of the student refund-request handler: `noPayment` and
`conflict` are the two 400 responses, `created` the 201. -/
inductive RefundReqResult where
  | noPayment
  | conflict
  | created (r : RefundRow)
deriving DecidableEq, Repr

/-- student.bookings.js lines 1041–1088, POST /:id/refund/request: find the
latest succeeded payment (400 when none), reject when a PENDING or REFUNDED
request already exists for it, else INSERT a PENDING request copying the
payment's amount and currency. -/
def studentRefundRequest (bookingId userId : String) (reason : Option String)
    (freshId : String) (now : Nat) (ledger : List PaymentRow)
    (refunds : List RefundRow) : RefundReqResult × List RefundRow :=
  match latestSucceededPayment bookingId userId ledger with
  | none => (.noPayment, refunds)
  | some pm =>
    if refunds.any (fun r =>
        r.paymentId == pm.id && (r.status == .PENDING || r.status == .REFUNDED)) then
      (.conflict, refunds)
    else
      let nr : RefundRow :=
        { id := freshId, userId := userId, bookingId := some bookingId,
          paymentId := pm.id, amountCents := pm.amountCents, currency := pm.currency,
          reason := reason, status := .PENDING, stripeRefundId := none,
          processedAt := none, createdAt := now, updatedAt := now }
      (.created nr, refunds ++ [nr])

/-- A refund call sent to the payment processor: by charge id or by
payment-intent id, with the requested amount. -/
inductive RefundCall where
  | byCharge (chargeId : String) (amountCents : Int)
  | byPI (piId : String) (amountCents : Int)
deriving DecidableEq, Repr

/-- Response of the admin approve handler: `notFound` is the 404,
`alreadyProcessed` and `noStripeRef` the two 400s, `stripeFailed` the 500
when the processor call throws, `refunded` the success. -/
inductive ApproveOutcome where
  | notFound
  | alreadyProcessed
  | noStripeRef
  | refunded (stripeRefundId : String)
  | stripeFailed
deriving DecidableEq, Repr

/-- The UPDATE run by a successful approve:
`SET status='REFUNDED', "stripeRefundId"=$2, "processedAt"=NOW()`. -/
def refundedUpdate (rid : String) (now : Nat) (r : RefundRow) : RefundRow :=
  { r with
    status := .REFUNDED
    stripeRefundId := some rid
    processedAt := some now
    updatedAt := now }

/-- Admin refunds route, POST /:id/refunds/:refundId/approve: load the
request by id and user (LEFT JOIN its payment for the charge / intent ids);
404 when absent; 400 when not PENDING; call the processor by charge id,
falling back to payment-intent id, for the requested amount (400 when the
payment has neither); on success UPDATE the row to REFUNDED with the
upstream refund id and processedAt; when the call throws, respond 500 and
update nothing. The processor is the `api` parameter; a thrown error is
its `Except.error` case. -/
def approveRefund (api : RefundCall → Except String String) (targetUserId refundId : String)
    (now : Nat) (ledger : List PaymentRow) (refunds : List RefundRow) :
    ApproveOutcome × List RefundRow :=
  match refunds.find? (fun r => r.id == refundId && r.userId == targetUserId) with
  | none => (.notFound, refunds)
  | some rr =>
    if rr.status != .PENDING then (.alreadyProcessed, refunds)
    else
      let pay := ledger.find? (fun p => p.id == rr.paymentId)
      let call : Option RefundCall :=
        match pay.bind (·.stripeChargeId) with
        | some c => some (.byCharge c rr.amountCents)
        | none =>
          match pay.bind (·.stripePaymentIntentId) with
          | some p => some (.byPI p rr.amountCents)
          | none => none
      match call with
      | none => (.noStripeRef, refunds)
      | some cl =>
        match api cl with
        | .error _ => (.stripeFailed, refunds)
        | .ok rid =>
          (.refunded rid, refunds.map fun r =>
            if r.id == rr.id then refundedUpdate rid now r else r)

/-- Admin refunds route, POST /:id/refunds/:refundId/decline, per-row effect
of the single conditional UPDATE
`SET status='DECLINED', "processedAt"=NOW() WHERE id=$1 AND "userId"=$2
 AND status='PENDING'`. -/
def declineRow (targetUserId refundId : String) (now : Nat) (r : RefundRow) : RefundRow :=
  if r.id == refundId && r.userId == targetUserId && r.status == RefundStatus.PENDING then
    { r with status := .DECLINED, processedAt := some now, updatedAt := now }
  else r

/-- The decline handler: the Bool is whether any row was returned (false
gives the 404 "Not found or already processed"). -/
def declineRefund (targetUserId refundId : String) (now : Nat) (refunds : List RefundRow) :
    Bool × List RefundRow :=
  (refunds.any (fun r =>
      r.id == refundId && r.userId == targetUserId && r.status == RefundStatus.PENDING),
   refunds.map (declineRow targetUserId refundId now))

/-- Admin route POST /:id/payments/:paymentId/refund (quick refund): load
the payment by id and user (404 when absent), INSERT a PENDING
RefundRequest for it — with no check for an existing request — then
re-dispatch to the approve handler for the new row. -/
def quickRefundHandler (api : RefundCall → Except String String)
    (paymentId targetUserId : String) (reason : Option String) (freshId : String)
    (now : Nat) (ledger : List PaymentRow) (refunds : List RefundRow) :
    ApproveOutcome × List RefundRow :=
  match ledger.find? (fun p => p.id == paymentId && p.userId == targetUserId) with
  | none => (.notFound, refunds)
  | some pm =>
    let nr : RefundRow :=
      { id := freshId, userId := pm.userId, bookingId := pm.bookingId,
        paymentId := pm.id, amountCents := pm.amountCents, currency := pm.currency,
        reason := reason, status := .PENDING, stripeRefundId := none,
        processedAt := none, createdAt := now, updatedAt := now }
    approveRefund api targetUserId nr.id now ledger (refunds ++ [nr])

/-- Succeeded OFFER_NOW payment used by the C6 counterexample. -/
def paymentC6cex : PaymentRow :=
  { id := "p1", userId := "u1", bookingId := some "b1", offerId := some "o1",
    type := "OFFER_NOW", amountCents := 50000, currency := "USD", status := "succeeded",
    stripePaymentIntentId := some "pi_6", stripeChargeId := some "ch_6",
    stripeCheckoutSessionId := none, cardBrand := none, cardLast4 := none,
    receiptUrl := none, createdAt := 1 }

/-- Existing PENDING refund request on that payment. -/
def refundC6cex : RefundRow :=
  { id := "rr1", userId := "u1", bookingId := some "b1", paymentId := "p1",
    amountCents := 50000, currency := "USD", reason := none, status := .PENDING,
    stripeRefundId := none, processedAt := none, createdAt := 2, updatedAt := 2 }

/-- Payment processor that accepts every refund (refund id "re_9"). -/
def apiOkC6 : RefundCall → Except String String := fun _ => .ok "re_9"

/-- C6 counterexample: payment p1 already has a PENDING refund request, yet
the admin quick-refund operation is not rejected: it inserts a second
request, leaving two PENDING-or-REFUNDED rows for the same payment. -/
theorem claim_C6_counterexample :
    [refundC6cex].countP (fun r => r.paymentId == "p1"
        && (r.status == RefundStatus.PENDING || r.status == RefundStatus.REFUNDED)) = 1
    ∧ (quickRefundHandler apiOkC6 "p1" "u1" none "rr2" 9 [paymentC6cex]
        [refundC6cex]).2.countP (fun r => r.paymentId == "p1"
        && (r.status == RefundStatus.PENDING || r.status == RefundStatus.REFUNDED)) = 2 := by
  decide

/-- C6 (amended): only the student-initiated refund request enforces
exclusivity: when the latest succeeded payment already has a PENDING or
REFUNDED request it is rejected with the conflict error and inserts
nothing, and otherwise it inserts exactly one new PENDING row; the admin
quick-refund appends a new PENDING request for the payment and proceeds
straight to approval, with no check for an existing request. -/
theorem claim_C6_amended_refund_exclusivity
    (bookingId userId payId2 : String) (reasonv : Option String) (freshId : String)
    (now : Nat) (ledger : List PaymentRow) (refunds : List RefundRow)
    (pm pm2 : PaymentRow) (api : RefundCall → Except String String)
    (hpm : latestSucceededPayment bookingId userId ledger = some pm)
    (hq : ledger.find? (fun p => p.id == payId2 && p.userId == userId) = some pm2) :
    (refunds.any (fun r => r.paymentId == pm.id
        && (r.status == RefundStatus.PENDING || r.status == RefundStatus.REFUNDED)) = true →
      studentRefundRequest bookingId userId reasonv freshId now ledger refunds
        = (.conflict, refunds))
    ∧ (refunds.any (fun r => r.paymentId == pm.id
        && (r.status == RefundStatus.PENDING || r.status == RefundStatus.REFUNDED)) = false →
      ∃ nr : RefundRow,
        studentRefundRequest bookingId userId reasonv freshId now ledger refunds
          = (.created nr, refunds ++ [nr])
        ∧ nr.status = .PENDING ∧ nr.paymentId = pm.id)
    ∧ (∃ nr2 : RefundRow,
        quickRefundHandler api payId2 userId reasonv freshId now ledger refunds
          = approveRefund api userId freshId now ledger (refunds ++ [nr2])
        ∧ nr2.status = .PENDING ∧ nr2.paymentId = pm2.id ∧ nr2.id = freshId) := by
  refine ⟨?_, ?_, ?_⟩
  · intro hex
    simp [studentRefundRequest, hpm, hex]
  · intro hex
    refine ⟨{ id := freshId, userId := userId, bookingId := some bookingId,
              paymentId := pm.id, amountCents := pm.amountCents, currency := pm.currency,
              reason := reasonv, status := .PENDING, stripeRefundId := none,
              processedAt := none, createdAt := now, updatedAt := now }, ?_, rfl, rfl⟩
    simp [studentRefundRequest, hpm, hex]
  · refine ⟨{ id := freshId, userId := pm2.userId, bookingId := pm2.bookingId,
              paymentId := pm2.id, amountCents := pm2.amountCents, currency := pm2.currency,
              reason := reasonv, status := .PENDING, stripeRefundId := none,
              processedAt := none, createdAt := now, updatedAt := now }, ?_, rfl, rfl, rfl⟩
    simp [quickRefundHandler, hq]

/-- Ledger and request rows for the C6 witness: the payment already has a
REFUNDED request. -/
def refundC6w : RefundRow :=
  { id := "rr1", userId := "u1", bookingId := some "b1", paymentId := "p1",
    amountCents := 50000, currency := "USD", reason := none, status := .REFUNDED,
    stripeRefundId := some "re_1", processedAt := some 3, createdAt := 2, updatedAt := 3 }

/-- C6 witness: with a REFUNDED request already on file, the student
refund-request operation on a concrete state returns the conflict error and
inserts nothing. -/
theorem claim_C6_witness :
    studentRefundRequest "b1" "u1" none "rr2" 9 [paymentC6cex] [refundC6w]
      = (.conflict, [refundC6w]) :=
  (claim_C6_amended_refund_exclusivity "b1" "u1" "p1" none "rr2" 9 [paymentC6cex]
      [refundC6w] paymentC6cex paymentC6cex apiOkC6 (by decide) (by decide)).1 (by decide)

/-- C8: on a found refund request — approval when not PENDING is rejected
with no state change; when PENDING the processor is called by charge id,
falling back to payment-intent id, for the requested amount; a processor
error leaves every request untouched and surfaces the failure; success
updates exactly the rows with the request's id to REFUNDED with the
upstream refund id and processedAt. Decline changes a row exactly when it
matches id, user and status PENDING, setting DECLINED with processedAt. -/
theorem claim_C8_admin_refund_decisions
    (api : RefundCall → Except String String) (targetUserId refundId : String)
    (now : Nat) (ledger : List PaymentRow) (refunds : List RefundRow) (rr : RefundRow)
    (hfind : refunds.find? (fun r => r.id == refundId && r.userId == targetUserId)
      = some rr) :
    (rr.status ≠ .PENDING →
      approveRefund api targetUserId refundId now ledger refunds
        = (.alreadyProcessed, refunds))
    ∧ (rr.status = .PENDING →
       ∀ c : String,
        (ledger.find? (fun p => p.id == rr.paymentId)).bind (fun p => p.stripeChargeId)
            = some c →
        (∀ e, api (.byCharge c rr.amountCents) = .error e →
          approveRefund api targetUserId refundId now ledger refunds
            = (.stripeFailed, refunds))
        ∧ (∀ rid, api (.byCharge c rr.amountCents) = .ok rid →
          approveRefund api targetUserId refundId now ledger refunds
            = (.refunded rid,
               refunds.map fun r => if r.id == rr.id then refundedUpdate rid now r else r)))
    ∧ (rr.status = .PENDING →
       ∀ p : String,
        (ledger.find? (fun q => q.id == rr.paymentId)).bind (fun q => q.stripeChargeId)
            = none →
        (ledger.find? (fun q => q.id == rr.paymentId)).bind
            (fun q => q.stripePaymentIntentId) = some p →
        (∀ e, api (.byPI p rr.amountCents) = .error e →
          approveRefund api targetUserId refundId now ledger refunds
            = (.stripeFailed, refunds))
        ∧ (∀ rid, api (.byPI p rr.amountCents) = .ok rid →
          approveRefund api targetUserId refundId now ledger refunds
            = (.refunded rid,
               refunds.map fun r => if r.id == rr.id then refundedUpdate rid now r else r)))
    ∧ (∀ rid, (refundedUpdate rid now rr).status = .REFUNDED
        ∧ (refundedUpdate rid now rr).stripeRefundId = some rid
        ∧ (refundedUpdate rid now rr).processedAt = some now)
    ∧ (∀ r : RefundRow,
        (r.id = refundId → r.userId = targetUserId → r.status = .PENDING →
          declineRow targetUserId refundId now r
            = { r with status := .DECLINED, processedAt := some now, updatedAt := now })
        ∧ (r.status ≠ .PENDING → declineRow targetUserId refundId now r = r)) := by
  refine ⟨?_, ?_, ?_, ?_, ?_⟩
  · intro hne
    have hb : (rr.status != RefundStatus.PENDING) = true := by simp [hne]
    simp [approveRefund, hfind, hb]
  · intro hp c hc
    have hb : (rr.status != RefundStatus.PENDING) = false := by simp [hp]
    constructor
    · intro e he
      simp [approveRefund, hfind, hb, hc, he]
    · intro rid hok
      simp [approveRefund, hfind, hb, hc, hok]
  · intro hp p hcnone hpi
    have hb : (rr.status != RefundStatus.PENDING) = false := by simp [hp]
    constructor
    · intro e he
      simp [approveRefund, hfind, hb, hcnone, hpi, he]
    · intro rid hok
      simp [approveRefund, hfind, hb, hcnone, hpi, hok]
  · intro rid
    exact ⟨rfl, rfl, rfl⟩
  · intro r
    constructor
    · intro h1 h2 h3
      simp [declineRow, h1, h2, h3]
    · intro hne
      have hb : (r.status == RefundStatus.PENDING) = false := by
        simp [hne]
      simp [declineRow, hb]

/-- PENDING refund request used by the C8 witness. -/
def refundC8w : RefundRow :=
  { id := "rr8", userId := "u8", bookingId := some "b8", paymentId := "p8",
    amountCents := 4000, currency := "USD", reason := none, status := .PENDING,
    stripeRefundId := none, processedAt := none, createdAt := 2, updatedAt := 2 }

/-- Payment behind that request, carrying a charge id. -/
def paymentC8w : PaymentRow :=
  { id := "p8", userId := "u8", bookingId := some "b8", offerId := none,
    type := "OFFER_NOW", amountCents := 4000, currency := "USD", status := "succeeded",
    stripePaymentIntentId := some "pi_8", stripeChargeId := some "ch_8",
    stripeCheckoutSessionId := none, cardBrand := none, cardLast4 := none,
    receiptUrl := none, createdAt := 1 }

/-- C8 witness: approving a concrete PENDING request with an accepting
processor marks it REFUNDED with the upstream refund id and processedAt. -/
theorem claim_C8_witness :
    approveRefund apiOkC6 "u8" "rr8" 5 [paymentC8w] [refundC8w]
      = (.refunded "re_9", [refundedUpdate "re_9" 5 refundC8w]) :=
  (((claim_C8_admin_refund_decisions apiOkC6 "u8" "rr8" 5 [paymentC8w] [refundC8w]
      refundC8w (by decide)).2.1 rfl "ch_8" (by decide)).2 "re_9" rfl).trans (by decide)

/-- Listing row: only the agent link matters here. -/
structure Listing where
  id : String
  agentId : String
deriving DecidableEq, Repr

/-- AgentPayoutItem row: links one ledger row to one payout batch. -/
structure PayoutItem where
  payoutId : String
  paymentId : String
deriving DecidableEq, Repr

/-- AgentPayout header row. -/
structure AgentPayout where
  id : String
  agentId : String
  amountCents : Int
  feesCents : Int
  netCents : Int
  txCount : Nat
deriving DecidableEq, Repr

/-- The tables read by the payout eligibility query. -/
structure PayoutState where
  payments : List PaymentRow
  bookings : List Booking
  listings : List Listing
  payoutItems : List PayoutItem
  payouts : List AgentPayout
  refunds : List RefundRow
deriving DecidableEq, Repr

/-- Rows produced for one payment by
`LEFT JOIN "RefundRequest" rr ON rr."paymentId" = sp.id`: one null row when
the payment has no refund requests, else one row per request — the query
has no latest-request restriction. -/
def leftJoinRefunds (refunds : List RefundRow) (pid : String) : List (Option RefundRow) :=
  if (refunds.filter (fun r => r.paymentId == pid)).isEmpty then [none]
  else (refunds.filter (fun r => r.paymentId == pid)).map some

/-- Membership semantics of the eligibility query in admin.agents.js
lines 630–654 (the same WHERE clause drives agent.payouts.js
`payableNowCents`): a ledger row appears in the result set iff some join
combination passes
  l."agentId" = $1 AND sp.type = 'OFFER_NOW' AND sp.status = 'succeeded'
  AND api.id IS NULL AND COALESCE(rr.status, 'NONE') NOT IN
  ('PENDING','REFUNDED').
The left-joined AgentPayoutItem passes `api.id IS NULL` only through its
null row, which exists iff the payment has no payout-item link; the
left-joined RefundRequest clause passes iff the null row or some joined
request row does. -/
def eligibleForPayout (st : PayoutState) (agentId : String) (sp : PaymentRow) : Bool :=
  (st.bookings.any fun b => sp.bookingId == some b.id
      && st.listings.any fun l => l.id == b.listingId && l.agentId == agentId)
  && sp.type == "OFFER_NOW"
  && sp.status == "succeeded"
  && !(st.payoutItems.any fun it => it.paymentId == sp.id)
  && ((leftJoinRefunds st.refunds sp.id).any fun orr =>
        match orr with
        | none => true
        | some r => r.status != RefundStatus.PENDING && r.status != RefundStatus.REFUNDED)

/-- The eligible set: ledger rows passing the query. -/
def payoutEligibleSet (st : PayoutState) (agentId : String) : List PaymentRow :=
  st.payments.filter (eligibleForPayout st agentId)

/-- admin.agents.js POST /:id/payouts: picks = the eligible rows, filtered
to the caller-supplied payment ids when that list is non-empty; 400 when no
picks; otherwise insert one AgentPayout header and one AgentPayoutItem per
pick in a single transaction. -/
def createPayoutBatch (st : PayoutState) (agentId payoutId : String)
    (paymentIds : List String) (feesCents : Int) :
    Option (AgentPayout × PayoutState) :=
  let base := payoutEligibleSet st agentId
  let picks := if paymentIds.isEmpty then base
    else base.filter (fun p => paymentIds.contains p.id)
  if picks.isEmpty then none
  else
    let amountCents := (picks.map (fun p => p.amountCents)).sum
    let head : AgentPayout :=
      { id := payoutId, agentId := agentId, amountCents := amountCents,
        feesCents := feesCents, netCents := amountCents - feesCents,
        txCount := picks.length }
    some (head,
      { st with
        payouts := st.payouts ++ [head]
        payoutItems := st.payoutItems
          ++ picks.map (fun p => { payoutId := payoutId, paymentId := p.id }) })

/-- Accumulator pass behind `latestRefundFor`. -/
def latestRefundAux : Option RefundRow → List RefundRow → Option RefundRow
  | acc, [] => acc
  | none, r :: rest => latestRefundAux (some r) rest
  | some a, r :: rest =>
      latestRefundAux (some (if r.createdAt > a.createdAt then r else a)) rest

/-- The most recent RefundRequest of a payment, by creation time. -/
def latestRefundFor (refunds : List RefundRow) (pid : String) : Option RefundRow :=
  latestRefundAux none (refunds.filter (fun r => r.paymentId == pid))

/-- Eligibility as the claim words it (a refinement reference, not source
code): the same agent/type/status/payout-link clauses, but the refund
condition reads only the latest RefundRequest of the payment. -/
def specEligibleForPayout (st : PayoutState) (agentId : String) (sp : PaymentRow) : Bool :=
  (st.bookings.any fun b => sp.bookingId == some b.id
      && st.listings.any fun l => l.id == b.listingId && l.agentId == agentId)
  && sp.type == "OFFER_NOW"
  && sp.status == "succeeded"
  && !(st.payoutItems.any fun it => it.paymentId == sp.id)
  && (match latestRefundFor st.refunds sp.id with
      | none => true
      | some r => r.status != RefundStatus.PENDING && r.status != RefundStatus.REFUNDED)

/-- The refund clause of the eligibility query passes iff the payment has
no refund requests at all, or some (not necessarily latest) request that is
neither PENDING nor REFUNDED. -/
theorem leftJoinRefunds_any_iff (refunds : List RefundRow) (pid : String) :
    (((leftJoinRefunds refunds pid).any fun orr =>
        match orr with
        | none => true
        | some r => r.status != RefundStatus.PENDING && r.status != RefundStatus.REFUNDED)
      = true)
    ↔ ((∀ r ∈ refunds, r.paymentId ≠ pid)
       ∨ (∃ r ∈ refunds, r.paymentId = pid
           ∧ r.status ≠ .PENDING ∧ r.status ≠ .REFUNDED)) := by
  by_cases hm : refunds.filter (fun r => r.paymentId == pid) = []
  · have hie : (refunds.filter (fun r => r.paymentId == pid)).isEmpty = true := by
      rw [hm]; rfl
    rw [List.filter_eq_nil_iff] at hm
    simp only [leftJoinRefunds, hie, if_true, List.any_cons, List.any_nil]
    constructor
    · intro _
      exact Or.inl (fun r hr => by simpa using hm r hr)
    · intro _
      simp
  · have hie : (refunds.filter (fun r => r.paymentId == pid)).isEmpty = false := by
      cases hf : refunds.filter (fun r => r.paymentId == pid) with
      | nil => exact absurd hf hm
      | cons a l => rfl
    simp only [leftJoinRefunds, hie, Bool.false_eq_true, if_false]
    obtain ⟨r0, hr0⟩ : ∃ r0, r0 ∈ refunds.filter (fun r => r.paymentId == pid) := by
      cases hf : refunds.filter (fun r => r.paymentId == pid) with
      | nil => exact absurd hf hm
      | cons a l => exact ⟨a, by simp [hf]⟩
    have hr0m := List.mem_filter.mp hr0
    constructor
    · intro h
      rw [List.any_eq_true] at h
      obtain ⟨orr, horr, hpass⟩ := h
      obtain ⟨r, hrmem, rfl⟩ := List.mem_map.mp horr
      have hrf := List.mem_filter.mp hrmem
      refine Or.inr ⟨r, hrf.1, by simpa using hrf.2, ?_, ?_⟩
      · intro hps
        simp [hps] at hpass
      · intro hps
        simp [hps] at hpass
    · intro h
      rcases h with h | h
      · exact absurd (by simpa using hr0m.2) (h r0 hr0m.1)
      · obtain ⟨r, hrmem, hpid, hp1, hp2⟩ := h
        rw [List.any_eq_true]
        refine ⟨some r, List.mem_map_of_mem some (List.mem_filter.mpr ⟨hrmem, by simp [hpid]⟩), ?_⟩
        simp [hp1, hp2]

/-- Succeeded OFFER_NOW payment used by the C9 counterexample and related
concrete states. -/
def paymentC9cex : PaymentRow :=
  { id := "p9", userId := "u1", bookingId := some "b1", offerId := some "o1",
    type := "OFFER_NOW", amountCents := 50000, currency := "USD", status := "succeeded",
    stripePaymentIntentId := some "pi_9c", stripeChargeId := none,
    stripeCheckoutSessionId := none, cardBrand := none, cardLast4 := none,
    receiptUrl := none, createdAt := 1 }

/-- Booking behind that payment. -/
def bookingC9cex : Booking :=
  { id := "b1", studentId := "u1", listingId := "l1", docIds := [], feePaidAt := some 1,
    paymentMethod := none, submittedAt := none, docsUpdatedAt := none,
    status := .APPROVED, updatedAt := 0 }

/-- Listing of agent a1. -/
def listingC9cex : Listing := { id := "l1", agentId := "a1" }

/-- Older, DECLINED refund request on payment p9. -/
def refundC9declined : RefundRow :=
  { id := "r1", userId := "u1", bookingId := some "b1", paymentId := "p9",
    amountCents := 50000, currency := "USD", reason := none, status := .DECLINED,
    stripeRefundId := none, processedAt := some 1, createdAt := 1, updatedAt := 1 }

/-- Newer, PENDING refund request on payment p9. -/
def refundC9pending : RefundRow :=
  { id := "r2", userId := "u1", bookingId := some "b1", paymentId := "p9",
    amountCents := 50000, currency := "USD", reason := none, status := .PENDING,
    stripeRefundId := none, processedAt := none, createdAt := 2, updatedAt := 2 }

/-- State refuting C9 as stated: p9 carries an old DECLINED request and a
newer PENDING one. -/
def stC9cex : PayoutState :=
  { payments := [paymentC9cex], bookings := [bookingC9cex], listings := [listingC9cex],
    payoutItems := [], payouts := [], refunds := [refundC9declined, refundC9pending] }

/-- C9 counterexample: the latest RefundRequest of payment p9 is PENDING,
so the claimed characterization excludes it from the eligible set — yet the
query still returns p9, because its LEFT JOIN admits the older DECLINED
request as a passing join row. -/
theorem claim_C9_counterexample :
    latestRefundFor stC9cex.refunds "p9" = some refundC9pending
    ∧ refundC9pending.status = .PENDING
    ∧ specEligibleForPayout stC9cex "a1" paymentC9cex = false
    ∧ eligibleForPayout stC9cex "a1" paymentC9cex = true
    ∧ payoutEligibleSet stC9cex "a1" = [paymentC9cex] := by
  decide

/-- C9 (amended): a ledger row is in the payout-eligible set iff it is an
OFFER_NOW succeeded row of the target agent with no payout-item link whose
refund requests are either absent or include at least one request that is
neither PENDING nor REFUNDED (the query has no latest-request restriction);
and a row included in a payout batch is excluded from the eligible set
computed on the post-batch state. -/
theorem claim_C9_amended_payout_eligibility (st : PayoutState) (agentId : String) :
    (∀ sp : PaymentRow, eligibleForPayout st agentId sp = true ↔
      ((∃ b ∈ st.bookings, sp.bookingId = some b.id
          ∧ ∃ l ∈ st.listings, l.id = b.listingId ∧ l.agentId = agentId)
       ∧ sp.type = "OFFER_NOW" ∧ sp.status = "succeeded"
       ∧ (∀ it ∈ st.payoutItems, it.paymentId ≠ sp.id)
       ∧ ((∀ r ∈ st.refunds, r.paymentId ≠ sp.id)
          ∨ (∃ r ∈ st.refunds, r.paymentId = sp.id
              ∧ r.status ≠ .PENDING ∧ r.status ≠ .REFUNDED))))
    ∧ (∀ (payoutId : String) (fees : Int) (po : AgentPayout) (st2 : PayoutState)
        (sp : PaymentRow) (ids : List String),
        createPayoutBatch st agentId payoutId ids fees = some (po, st2) →
        sp ∈ payoutEligibleSet st agentId →
        (ids = [] ∨ ids.contains sp.id = true) →
        eligibleForPayout st2 agentId sp = false) := by
  constructor
  · intro sp
    rw [show eligibleForPayout st agentId sp
        = ((st.bookings.any fun b => sp.bookingId == some b.id
            && st.listings.any fun l => l.id == b.listingId && l.agentId == agentId)
          && sp.type == "OFFER_NOW"
          && sp.status == "succeeded"
          && !(st.payoutItems.any fun it => it.paymentId == sp.id)
          && ((leftJoinRefunds st.refunds sp.id).any fun orr =>
                match orr with
                | none => true
                | some r => r.status != RefundStatus.PENDING
                    && r.status != RefundStatus.REFUNDED)) from rfl]
    simp only [Bool.and_eq_true]
    rw [leftJoinRefunds_any_iff]
    constructor
    · rintro ⟨⟨⟨⟨hbl, hty⟩, hst⟩, hitem⟩, hrf⟩
      refine ⟨?_, by simpa using hty, by simpa using hst, ?_, hrf⟩
      · rw [List.any_eq_true] at hbl
        obtain ⟨b, hb, hcond⟩ := hbl
        rw [Bool.and_eq_true, List.any_eq_true] at hcond
        obtain ⟨hbid, l, hl, hlc⟩ := hcond
        rw [Bool.and_eq_true] at hlc
        exact ⟨b, hb, by simpa using hbid, l, hl, by simpa using hlc.1,
          by simpa using hlc.2⟩
      · rw [Bool.not_eq_true', List.any_eq_false] at hitem
        intro it hit
        simpa using hitem it hit
    · rintro ⟨⟨b, hb, hbid, l, hl, hlid, hlag⟩, hty, hst, hitem, hrf⟩
      refine ⟨⟨⟨⟨?_, by simpa using hty⟩, by simpa using hst⟩, ?_⟩, hrf⟩
      · rw [List.any_eq_true]
        refine ⟨b, hb, ?_⟩
        rw [Bool.and_eq_true, List.any_eq_true]
        exact ⟨by simpa using hbid, l, hl, by simp [hlid, hlag]⟩
      · rw [Bool.not_eq_true', List.any_eq_false]
        intro it hit
        simpa using hitem it hit
  · intro payoutId fees po st2 sp ids hcreate hsp hids
    have hpicks : sp ∈ (if ids.isEmpty then payoutEligibleSet st agentId
        else (payoutEligibleSet st agentId).filter (fun p => ids.contains p.id)) := by
      rcases hids with h | h
      · subst h
        simpa using hsp
      · cases hi : ids.isEmpty with
        | true =>
          have hnil : ids = [] := by simpa using hi
          subst hnil
          simp at h
        | false =>
          simp only [Bool.false_eq_true, if_false]
          rw [List.mem_filter]
          exact ⟨hsp, h⟩
    unfold createPayoutBatch at hcreate
    by_cases hpe : (if ids.isEmpty then payoutEligibleSet st agentId
        else (payoutEligibleSet st agentId).filter (fun p => ids.contains p.id)).isEmpty = true
    · rw [if_pos hpe] at hcreate
      exact absurd hcreate (by simp)
    · rw [if_neg hpe] at hcreate
      have hst2 := (Prod.mk.injEq _ _ _ _).mp (Option.some.injEq _ _ |>.mp hcreate)
      have hitems : ({ payoutId := payoutId, paymentId := sp.id } : PayoutItem)
          ∈ st2.payoutItems := by
        rw [← hst2.2]
        exact List.mem_append_right _ (List.mem_map_of_mem _ hpicks)
      have hany : (st2.payoutItems.any fun it => it.paymentId == sp.id) = true := by
        rw [List.any_eq_true]
        exact ⟨_, hitems, by simp⟩
      simp [eligibleForPayout, hany]

/-- Eligible payment for the C9 witness (no refund requests on file). -/
def paymentC9w : PaymentRow :=
  { id := "p9w", userId := "u1", bookingId := some "b1", offerId := some "o1",
    type := "OFFER_NOW", amountCents := 50000, currency := "USD", status := "succeeded",
    stripePaymentIntentId := some "pi_9w", stripeChargeId := none,
    stripeCheckoutSessionId := none, cardBrand := none, cardLast4 := none,
    receiptUrl := none, createdAt := 1 }

/-- Pre-batch state for the C9 witness. -/
def stC9w : PayoutState :=
  { payments := [paymentC9w], bookings := [bookingC9cex], listings := [listingC9cex],
    payoutItems := [], payouts := [], refunds := [] }

/-- The payout header the batch creates. -/
def payoutC9w : AgentPayout :=
  { id := "po1", agentId := "a1", amountCents := 50000, feesCents := 0,
    netCents := 50000, txCount := 1 }

/-- The post-batch state: p9w is linked to payout po1. -/
def stC9wAfter : PayoutState :=
  { stC9w with
    payouts := [payoutC9w]
    payoutItems := [{ payoutId := "po1", paymentId := "p9w" }] }

/-- C9 witness: after a concrete batch includes p9w, the eligible set of
the post-batch state excludes it. -/
theorem claim_C9_witness : eligibleForPayout stC9wAfter "a1" paymentC9w = false :=
  (claim_C9_amended_payout_eligibility stC9w "a1").2 "po1" 0 payoutC9w stC9wAfter
    paymentC9w [] (by decide) (by decide) (Or.inl rfl)

end GlobalCribs
